import Mathlib

/-
Verification of the SVG-to-PDF conversion pipeline in fpdf/svg.py: the
transform compiler, smooth-curve resolution, unit resolver, shape
converters, style mapper, viewport scaler and the document walker with its
cross-reference table.  Numeric values are embedded as rationals.
-/

namespace FpdfSvg

instance {ε α : Type} [DecidableEq ε] [DecidableEq α] :
    DecidableEq (Except ε α) := fun x y =>
  match x, y with
  | .ok a, .ok b =>
      if h : a = b then isTrue (by rw [h])
      else isFalse (fun hh => h (Except.ok.inj hh))
  | .error a, .error b =>
      if h : a = b then isTrue (by rw [h])
      else isFalse (fun hh => h (Except.error.inj hh))
  | .ok _, .error _ => isFalse (fun hh => Except.noConfusion hh)
  | .error _, .ok _ => isFalse (fun hh => Except.noConfusion hh)

/-- Modelled from the spec: the external drawing-model AffineTransform
(fpdf.drawing.Transform, not part of the source under verification).  Six
coefficients, applied to a point as x1 = a*x + c*y + e, y1 = b*x + d*y + f.
Composition matmul A B (written in the source as A @ B) is the matrix product
in which A is applied to geometry first and B second; this orientation is
fixed by the spec statement that accumulating new = delta @ existing makes
the first transform function in the text apply to geometry last. -/
structure Transform where
  a : ℚ
  b : ℚ
  c : ℚ
  d : ℚ
  e : ℚ
  f : ℚ
deriving DecidableEq, Repr

namespace Transform

/-- Point application of an affine transform, per the spec formula. -/
def apply (T : Transform) (p : ℚ × ℚ) : ℚ × ℚ :=
  (T.a * p.1 + T.c * p.2 + T.e, T.b * p.1 + T.d * p.2 + T.f)

/-- Composition: matmul A B applies A first, then B. -/
def matmul (A B : Transform) : Transform :=
  { a := A.a * B.a + A.b * B.c
    b := A.a * B.b + A.b * B.d
    c := A.c * B.a + A.d * B.c
    d := A.c * B.b + A.d * B.d
    e := A.e * B.a + A.f * B.c + B.e
    f := A.e * B.b + A.f * B.d + B.f }

/-- Identity transform. -/
def identity : Transform := ⟨1, 0, 0, 1, 0, 0⟩

/-- Translation by (x, y). -/
def translation (x y : ℚ) : Transform := ⟨1, 0, 0, 1, x, y⟩

/-- Axis-aligned scaling. -/
def scaling (x y : ℚ) : Transform := ⟨x, 0, 0, y, 0, 0⟩

/-- Shear; x and y are the tangent factors. -/
def shearing (x y : ℚ) : Transform := ⟨1, y, x, 1, 0, 0⟩

/-- Rotation given the cosine and sine of the angle (trigonometric
evaluation happens outside the compiler, in the math library). -/
def rotationCS (c s : ℚ) : Transform := ⟨c, s, -s, c, 0, 0⟩

/-- Conjugation moving a transform to act about the point (x, y); per the
spec the rotation is conjugated by a translation to and from that center. -/
def about (T : Transform) (x y : ℚ) : Transform :=
  matmul (translation (-x) (-y)) (matmul T (translation x y))

theorem apply_matmul (A B : Transform) (p : ℚ × ℚ) :
    (matmul A B).apply p = B.apply (A.apply p) := by
  simp only [apply, matmul, Prod.mk.injEq]
  constructor <;> ring

theorem apply_identity (p : ℚ × ℚ) : identity.apply p = p := by
  simp [apply, identity]

theorem matmul_identity (A : Transform) : matmul A identity = A := by
  simp [matmul, identity]

end Transform

/-- A parsed transform function from a transform-list string, as extracted
by TRANSFORM_GETTER with its numeric arguments already split.  The distinct
one-argument and two-argument constructors record the argument-count cases
of convert_transforms; rotate carries the cosine and sine of the resolved
angle and skew variants carry the tangents of the resolved angles, since
trigonometric evaluation is delegated to the external math library. -/
inductive TF where
  | matrix (a b c d e f : ℚ)
  | rotate (c s : ℚ) (aboutPt : Option (ℚ × ℚ))
  | scale1 (s : ℚ)
  | scale2 (sx sy : ℚ)
  | scaleX (s : ℚ)
  | scaleY (s : ℚ)
  | skew1 (tx : ℚ)
  | skew2 (tx ty : ℚ)
  | skewX (tx : ℚ)
  | skewY (ty : ℚ)
  | translate1 (x : ℚ)
  | translate2 (x y : ℚ)
  | translateX (x : ℚ)
  | translateY (y : ℚ)
deriving DecidableEq, Repr

/-- Embedding of convert_transforms (svg.py lines 479-566): fold over the
parsed function list, pre-composing each delta onto the accumulated
transform (transform = delta @ transform), starting from the identity. -/
def convert_transforms (parsed : List TF) : Transform :=
  parsed.foldl
    (fun transform tf =>
      match tf with
      | .matrix a b c d e f => Transform.matmul ⟨a, b, c, d, e, f⟩ transform
      | .rotate c s none => Transform.matmul (Transform.rotationCS c s) transform
      | .rotate c s (some ab) =>
          Transform.matmul ((Transform.rotationCS c s).about ab.1 ab.2) transform
      | .scale1 s => Transform.matmul (Transform.scaling s s) transform
      | .scale2 sx sy => Transform.matmul (Transform.scaling sx sy) transform
      | .scaleX s => Transform.matmul (Transform.scaling s 1) transform
      | .scaleY s => Transform.matmul (Transform.scaling 1 s) transform
      | .skew1 tx => Transform.matmul (Transform.shearing tx 0) transform
      | .skew2 tx ty => Transform.matmul (Transform.shearing tx ty) transform
      | .skewX tx => Transform.matmul (Transform.shearing tx 0) transform
      | .skewY ty => Transform.matmul (Transform.shearing 0 ty) transform
      | .translate1 x => Transform.matmul (Transform.translation x 0) transform
      | .translate2 x y => Transform.matmul (Transform.translation x y) transform
      | .translateX x => Transform.matmul (Transform.translation x 0) transform
      | .translateY y => Transform.matmul (Transform.translation 0 y) transform)
    Transform.identity

/-- The per-function delta transform, stated separately from the fold. -/
def TF.delta : TF → Transform
  | .matrix a b c d e f => ⟨a, b, c, d, e, f⟩
  | .rotate c s none => Transform.rotationCS c s
  | .rotate c s (some ab) => (Transform.rotationCS c s).about ab.1 ab.2
  | .scale1 s => Transform.scaling s s
  | .scale2 sx sy => Transform.scaling sx sy
  | .scaleX s => Transform.scaling s 1
  | .scaleY s => Transform.scaling 1 s
  | .skew1 tx => Transform.shearing tx 0
  | .skew2 tx ty => Transform.shearing tx ty
  | .skewX tx => Transform.shearing tx 0
  | .skewY ty => Transform.shearing 0 ty
  | .translate1 x => Transform.translation x 0
  | .translate2 x y => Transform.translation x y
  | .translateX x => Transform.translation x 0
  | .translateY y => Transform.translation 0 y

theorem convert_transforms_eq (l : List TF) :
    convert_transforms l =
      l.foldl (fun transform tf => Transform.matmul tf.delta transform)
        Transform.identity := by
  unfold convert_transforms
  congr 1
  funext transform tf
  cases tf <;> try rfl
  rename_i c s ab
  cases ab <;> rfl

theorem foldl_delta_apply (l : List TF) (T : Transform) (p : ℚ × ℚ) :
    ((l.foldl (fun transform tf => Transform.matmul tf.delta transform) T).apply p)
      = T.apply (l.foldr (fun tf q => tf.delta.apply q) p) := by
  induction l generalizing T with
  | nil => rfl
  | cons tf rest ih =>
      rw [List.foldl_cons, List.foldr_cons, ih, Transform.apply_matmul]

/-- C2 (counterexample): the transform compiled from the two-function list
f1 = translate(1), f2 = scale(2) does not equal matmul (delta f1) (delta f2)
(written f1 @ f2 in the source), refuting the claim that the result for a
two-function list equals f1 @ f2 of the individual transforms. -/
theorem convert_transforms_f1_f2_counterexample :
    convert_transforms [TF.translate1 1, TF.scale1 2] ≠
      Transform.matmul (TF.translate1 1).delta (TF.scale1 2).delta := by
  rw [convert_transforms_eq]
  simp [List.foldl, TF.delta, Transform.matmul, Transform.identity,
    Transform.translation, Transform.scaling, Transform.mk.injEq]

/-- C2 (amended): the transform compiler folds each function delta onto the
accumulated result as new = delta @ existing, so applying the compiled
transform to a point applies the textually last function first and the
textually first function last; for a two-function list the result equals
f2 @ f1 (matmul (delta f2) (delta f1)) of the individual transforms. -/
theorem convert_transforms_composition :
    (∀ (l : List TF) (p : ℚ × ℚ),
        (convert_transforms l).apply p = l.foldr (fun tf q => tf.delta.apply q) p)
    ∧ ∀ t1 t2 : TF,
        convert_transforms [t1, t2] = Transform.matmul t2.delta t1.delta := by
  constructor
  · intro l p
    rw [convert_transforms_eq, foldl_delta_apply, Transform.apply_identity]
  · intro t1 t2
    rw [convert_transforms_eq]
    simp [List.foldl, Transform.matmul_identity]

/-- Modelled from the spec: the drawing-model 2D point (fpdf.drawing.Point),
with componentwise subtraction and scalar multiplication. -/
structure Point where
  x : ℚ
  y : ℚ
deriving DecidableEq, Repr

instance : Sub Point := ⟨fun p q => ⟨p.x - q.x, p.y - q.y⟩⟩

/-- Scalar multiple of a point, as used in the reflection 2 * end - ctrl. -/
def Point.smul (k : ℚ) (p : Point) : Point := ⟨k * p.x, k * p.y⟩

/-- Modelled from the spec: the resolved drawing-model path elements that can
appear as the last_item argument at emission time (fpdf.drawing curve and
line primitives).  The source field named end is called endP here because
end is a Lean keyword. -/
inductive ResolvedItem where
  | bezier (c1 c2 endP : Point)
  | quadratic (ctrl endP : Point)
  | line (endP : Point)
  | move (endP : Point)
  | close (endP : Point)
deriving DecidableEq, Repr

/-- Endpoint accessor, mirroring the end_point property each drawing-model
path element exposes. -/
def ResolvedItem.end_point : ResolvedItem → Point
  | .bezier _ _ e => e
  | .quadratic _ e => e
  | .line e => e
  | .move e => e
  | .close e => e

/-- Test for the cubic Bézier variant (the isinstance BezierCurve check). -/
def ResolvedItem.isBezier : ResolvedItem → Bool
  | .bezier _ _ _ => true
  | _ => false

/-- Test for the quadratic Bézier variant (the isinstance
QuadraticBezierCurve check). -/
def ResolvedItem.isQuadratic : ResolvedItem → Bool
  | .quadratic _ _ => true
  | _ => false

/-- Embedding of SVGSmoothCubicCurve.render (svg.py lines 580-594): derive
the leading control point from last_item, then resolve to the cubic curve
BezierCurve(c1, self.c2, self.end). -/
def SVGSmoothCubicCurve.render (c2 endP : Point) (last_item : ResolvedItem) :
    ResolvedItem :=
  match last_item with
  | .bezier _ lc2 le => .bezier (Point.smul 2 le - lc2) c2 endP
  | _ => .bezier last_item.end_point c2 endP

/-- Embedding of SVGSmoothQuadraticCurve.render (svg.py lines 656-664):
derive the control point from last_item, then resolve to
QuadraticBezierCurve(ctrl, self.end). -/
def SVGSmoothQuadraticCurve.render (endP : Point) (last_item : ResolvedItem) :
    ResolvedItem :=
  match last_item with
  | .quadratic lctrl le => .quadratic (Point.smul 2 le - lctrl) endP
  | _ => .quadratic last_item.end_point endP

/-- C1: at emission time a smooth cubic segment derives its leading control
point as 2 * end - c2 of the preceding cubic curve, and as the current point
(the preceding segment's endpoint) when the preceding segment is not a cubic
curve; the analogous rule holds for smooth quadratic segments against the
quadratic family. -/
theorem smooth_curve_chaining :
    (∀ (c2 endP lc1 lc2 le : Point),
        SVGSmoothCubicCurve.render c2 endP (.bezier lc1 lc2 le)
          = .bezier (Point.smul 2 le - lc2) c2 endP)
    ∧ (∀ (c2 endP : Point) (last_item : ResolvedItem),
        last_item.isBezier = false →
        SVGSmoothCubicCurve.render c2 endP last_item
          = .bezier last_item.end_point c2 endP)
    ∧ (∀ (endP lctrl le : Point),
        SVGSmoothQuadraticCurve.render endP (.quadratic lctrl le)
          = .quadratic (Point.smul 2 le - lctrl) endP)
    ∧ (∀ (endP : Point) (last_item : ResolvedItem),
        last_item.isQuadratic = false →
        SVGSmoothQuadraticCurve.render endP last_item
          = .quadratic last_item.end_point endP) := by
  refine ⟨fun _ _ _ _ _ => rfl, fun c2 endP last h => ?_,
    fun _ _ _ => rfl, fun endP last h => ?_⟩
  · cases last <;> simp_all [SVGSmoothCubicCurve.render, ResolvedItem.isBezier]
  · cases last <;> simp_all [SVGSmoothQuadraticCurve.render, ResolvedItem.isQuadratic]

/-- C1 witness: concrete instances of the chaining rule; a line item before
a smooth cubic yields the current point as leading control point. -/
theorem smooth_curve_chaining_witness :
    (ResolvedItem.line ⟨3, 4⟩).isBezier = false
    ∧ SVGSmoothCubicCurve.render ⟨1, 1⟩ ⟨5, 6⟩ (.line ⟨3, 4⟩)
        = .bezier ⟨3, 4⟩ ⟨1, 1⟩ ⟨5, 6⟩
    ∧ (ResolvedItem.bezier ⟨0, 0⟩ ⟨2, 2⟩ ⟨3, 4⟩).isQuadratic = false
    ∧ SVGSmoothQuadraticCurve.render ⟨9, 9⟩ (.bezier ⟨0, 0⟩ ⟨2, 2⟩ ⟨3, 4⟩)
        = .quadratic ⟨3, 4⟩ ⟨9, 9⟩ :=
  ⟨rfl, smooth_curve_chaining.2.1 ⟨1, 1⟩ ⟨5, 6⟩ (.line ⟨3, 4⟩) rfl, rfl,
    smooth_curve_chaining.2.2.2 ⟨9, 9⟩ (.bezier ⟨0, 0⟩ ⟨2, 2⟩ ⟨3, 4⟩) rfl⟩

/-- Embedding of the table absolute_length_units (svg.py lines 94-103). -/
def absolute_length_units : List (String × ℚ) :=
  [("in", 72), ("cm", 72 / 2.54), ("mm", 72 / 25.4), ("pt", 1), ("pc", 12),
   ("px", 0.75), ("Q", 72 / 101.6)]

/-- Embedding of the set relative_length_units (svg.py lines 74-92). -/
def relative_length_units : List String :=
  ["%", "em", "ex", "ch", "rem", "vw", "vh", "vmin", "vmax", "cap", "ic",
   "lh", "rlh", "vi", "vb"]

/-- The two distinct failures of resolve_length: a recognized relative or
viewport-relative unit, versus a genuinely unrecognized unit token. -/
inductive LengthError where
  | unsupportedRelative (unit : String)
  | unrecognizedUnit (unit : String)
deriving DecidableEq, Repr

/-- Embedding of resolve_length (svg.py lines 118-133) after the
unit_splitter regex has separated the numeric value from the unit token: an
empty unit token takes the default, known absolute units convert by their
multiplier, recognized relative units and unrecognized tokens fail with
distinct errors. -/
def resolve_length (value : ℚ) (unit default_unit : String) :
    Except LengthError ℚ :=
  let u := if unit = "" then default_unit else unit
  match absolute_length_units.lookup u with
  | some mult => .ok (value * mult)
  | none =>
      if u ∈ relative_length_units then .error (.unsupportedRelative u)
      else .error (.unrecognizedUnit u)

/-- C8: a recognized-but-unsupported relative unit fails with the
unsupportedRelative error, a genuinely unrecognized unit fails with the
distinct unrecognizedUnit error, and the two errors never coincide, so the
caller can tell the cases apart; no value is returned in either case. -/
theorem resolve_length_error_distinction :
    (∀ (v : ℚ) (u du : String), u ∈ relative_length_units →
        resolve_length v u du = .error (.unsupportedRelative u))
    ∧ (∀ (v : ℚ) (u du : String), u ∉ relative_length_units →
        absolute_length_units.lookup u = none → u ≠ "" →
        resolve_length v u du = .error (.unrecognizedUnit u))
    ∧ (∀ u u' : String,
        LengthError.unsupportedRelative u ≠ LengthError.unrecognizedUnit u') := by
  refine ⟨fun v u du h => ?_, fun v u du h1 h2 h3 => ?_, fun u u' h => ?_⟩
  · fin_cases h <;> rfl
  · simp only [resolve_length, if_neg h3, h2, if_neg h1]
  · exact LengthError.noConfusion h

/-- C8 witness: the relative unit em and the unknown unit foo at concrete
inputs produce the two distinct errors. -/
theorem resolve_length_error_distinction_witness :
    ("em" ∈ relative_length_units
      ∧ resolve_length 5 "em" "pt" = .error (.unsupportedRelative "em"))
    ∧ ("foo" ∉ relative_length_units
      ∧ resolve_length 5 "foo" "pt" = .error (.unrecognizedUnit "foo"))
    ∧ LengthError.unsupportedRelative "em" ≠ LengthError.unrecognizedUnit "foo" :=
  ⟨⟨by decide, resolve_length_error_distinction.1 5 "em" "pt" (by decide)⟩,
   ⟨by decide, resolve_length_error_distinction.2.1 5 "foo" "pt" (by decide)
      (by decide) (by decide)⟩,
   resolve_length_error_distinction.2.2 "em" "foo"⟩

/-- Numeric value of a digit character list. -/
def natValOf (cs : List Char) : ℚ :=
  ((cs.foldl (fun n c => 10 * n + (c.toNat - 48)) 0 : ℕ) : ℚ)

/-- Whitespace trim on both ends of a character list. -/
def trimChars (cs : List Char) : List Char :=
  ((cs.dropWhile Char.isWhitespace).reverse.dropWhile Char.isWhitespace).reverse

/-- Modelled from the spec: the Python builtin float() on attribute strings
(an external language primitive).  Plain decimal literals with an optional
sign and fractional part succeed; any other text (such as the word inherit)
is not numeric and yields none, which in the source raises ValueError.
Exponent and infinity forms are not modelled, as no claim touches them. -/
def pyFloat (s : String) : Option ℚ :=
  let t := trimChars s.toList
  let (neg, body) :=
    match t with
    | '-' :: rest => (true, rest)
    | '+' :: rest => (false, rest)
    | _ => (false, t)
  let val? : Option ℚ :=
    match body.splitOn '.' with
    | [ip] =>
        if ip ≠ [] ∧ ip.all Char.isDigit then some (natValOf ip) else none
    | [ip, fp] =>
        if (ip ≠ [] ∨ fp ≠ []) ∧ ip.all Char.isDigit ∧ fp.all Char.isDigit then
          some (natValOf ip + natValOf fp / 10 ^ fp.length)
        else none
    | _ => none
  val?.map (fun v => if neg then -v else v)

/-- Failure of a float conversion on a shape or style attribute, the model
of an uncaught Python ValueError from float(). -/
inductive NumError where
  | badNumber (s : String)
deriving DecidableEq, Repr

/-- Float conversion of an attribute value, erroring like float() does. -/
def floatOf (s : String) : Except NumError ℚ :=
  match pyFloat s with
  | some v => .ok v
  | none => .error (.badNumber s)

/-- Float conversion of an optional attribute with the numeric default 0
used by attrib.get(name, 0). -/
def floatOfOpt (o : Option String) : Except NumError ℚ :=
  match o with
  | none => .ok 0
  | some s => floatOf s

/-- Modelled from the spec: Python equality between a str value and an int
literal, as written in the guard rx == 0 of ShapeBuilder.ellipse.  Values of
distinct non-numeric types never compare equal in Python, so this test is
always false for attribute strings. -/
def pyEqStrInt (_s : String) (_n : ℤ) : Bool :=
  false

/-- Result of the ellipse converter: either an empty path with no geometry,
or a path with an ellipse at the given center and radii. -/
inductive EllipseOut where
  | empty
  | ellipse (cx cy rx ry : ℚ)
deriving DecidableEq, Repr

/-- Embedding of ShapeBuilder.ellipse (svg.py lines 405-428): read cx and cy
with default 0, read rx and ry with default auto, return the empty path when
rx == ry == auto or when the str-to-int comparisons rx == 0 or ry == 0 hold,
otherwise mirror an auto radius from the other and emit the ellipse.  Style
application on the created path is handled by the style-mapper model. -/
def ShapeBuilder.ellipse (cxA cyA rxA ryA : Option String) :
    Except NumError EllipseOut := do
  let cx ← floatOfOpt cxA
  let cy ← floatOfOpt cyA
  let rx := rxA.getD "auto"
  let ry := ryA.getD "auto"
  if (rx = ry ∧ ry = "auto") ∨ pyEqStrInt rx 0 ∨ pyEqStrInt ry 0 then
    return .empty
  else
    if rx = "auto" then do
      let v ← floatOf ry
      return .ellipse cx cy v v
    else if ry = "auto" then do
      let v ← floatOf rx
      return .ellipse cx cy v v
    else do
      let a ← floatOf rx
      let b ← floatOf ry
      return .ellipse cx cy a b

/-- C7 at the failing input rx="0" ry="0": because the guard compares the
attribute strings to the integer 0, it never fires, and the converter emits
a degenerate ellipse with zero radii instead of the empty path the claim
requires. -/
theorem ellipse_zero_radii_not_empty :
    ShapeBuilder.ellipse none none (some "0") (some "0")
        = .ok (.ellipse 0 0 0 0)
    ∧ ShapeBuilder.ellipse none none (some "0") (some "0")
        ≠ .ok .empty := by
  have h1 : ShapeBuilder.ellipse none none (some "0") (some "0")
      = .ok (.ellipse 0 0 0 0) := by decide
  refine ⟨h1, ?_⟩
  rw [h1]
  simp

/-- The value stored into a style-record field: the inherit marker
(GraphicsStyle.INHERIT), the Python None used both for the markup value
none and for a zero stroke width, or a concrete resolved value. -/
inductive StyleVal where
  | inherit
  | unset
  | str (s : String)
  | color (hex : String)
  | num (q : ℚ)
  | numList (l : List ℚ)
deriving DecidableEq, Repr

/-- Errors raised by the attribute converters (ValueError in the source). -/
inductive StyleError where
  | unsupportedColor (s : String)
  | styleBadNumber (s : String)
  | negativeStrokeWidth (s : String)
  | smallMiterLimit (s : String)
deriving DecidableEq, Repr

/-- Embedding of inheritable (svg.py lines 223-228): the literal inherit
maps to the inherit marker, anything else goes through the converter. -/
def inheritable (value : String)
    (converter : String → Except StyleError StyleVal) :
    Except StyleError StyleVal :=
  if value = "inherit" then .ok .inherit else converter value

/-- Embedding of optional (svg.py lines 231-236): the literal none maps to
the Python None marker, anything else is treated as inheritable. -/
def optional (value : String)
    (converter : String → Except StyleError StyleVal) :
    Except StyleError StyleVal :=
  if value = "none" then .ok .unset else inheritable value converter

/-- Modelled from the spec: the external color-name lookup table
(html.COLOR_DICT), restricted to the few names used here. -/
def COLOR_DICT : List (String × String) :=
  [("red", "#ff0000"), ("blue", "#0000ff"), ("green", "#008000"),
   ("black", "#000000"), ("white", "#ffffff")]

/-- Embedding of svgcolor (svg.py lines 177-187): color names resolve
through the dictionary, hex strings are accepted, anything else errors.
The hex-to-component conversion itself is an external collaborator, so the
model keeps the hex string. -/
def svgcolor (colorstr : String) : Except StyleError StyleVal :=
  let c := match COLOR_DICT.lookup colorstr with
    | some hex => hex
    | none => colorstr
  match c.toList with
  | '#' :: _ => .ok (.color c)
  | _ => .error (.unsupportedColor c)

/-- The default identity converter of inheritable and optional. -/
def identityConv (v : String) : Except StyleError StyleVal :=
  .ok (.str v)

/-- Float conversion for a style value. -/
def floatConv (v : String) : Except StyleError StyleVal :=
  match pyFloat v with
  | some q => .ok (.num q)
  | none => .error (.styleBadNumber v)

/-- Embedding of clamp_float (svg.py lines 211-220) at bounds lo and hi. -/
def clampConv (lo hi : ℚ) (v : String) : Except StyleError StyleVal :=
  match pyFloat v with
  | some q => .ok (.num (if q < lo then lo else if q > hi then hi else q))
  | none => .error (.styleBadNumber v)

/-- Embedding of convert_stroke_width (svg.py lines 191-198): negative
widths error, a zero width becomes Python None. -/
def convert_stroke_width (v : String) : Except StyleError StyleVal :=
  match pyFloat v with
  | some q =>
      if q < 0 then .error (.negativeStrokeWidth v)
      else if q = 0 then .ok .unset
      else .ok (.num q)
  | none => .error (.styleBadNumber v)

/-- Embedding of convert_miterlimit (svg.py lines 202-207). -/
def convert_miterlimit (v : String) : Except StyleError StyleVal :=
  match pyFloat v with
  | some q => if q < 1 then .error (.smallMiterLimit v) else .ok (.num q)
  | none => .error (.styleBadNumber v)

/-- Split on the comma and whitespace separators of NUMBER_SPLIT; runs of
separators collapse, matching the regex on well-formed lists. -/
def splitNumbers (s : String) : List String :=
  ((s.toList.splitOnP (fun c => c == ',' || c == ' ')).filter
    (fun l => not l.isEmpty)).map String.mk

/-- Converter for stroke-dasharray: every split item parsed as a float. -/
def dashArrayConv (da : String) : Except StyleError StyleVal :=
  match (splitNumbers da).mapM pyFloat with
  | some l => .ok (.numList l)
  | none => .error (.styleBadNumber da)

/-- Embedding of svg_attr_map (svg.py lines 241-285): each handled
presentation attribute paired with its conversion closure returning the
style-record field name and the converted value. -/
def svg_attr_map : List (String × (String → Except StyleError (String × StyleVal))) :=
  [("fill", fun c => (optional c svgcolor).map (fun v => ("fill_color", v))),
   ("fill-rule", fun s =>
      (inheritable s identityConv).map (fun v => ("intersection_rule", v))),
   ("fill-opacity", fun s =>
      (inheritable s (clampConv 0 1)).map (fun v => ("fill_opacity", v))),
   ("stroke", fun c => (optional c svgcolor).map (fun v => ("stroke_color", v))),
   ("stroke-width", fun s =>
      (inheritable s convert_stroke_width).map (fun v => ("stroke_width", v))),
   ("stroke-dasharray", fun s =>
      (optional s dashArrayConv).map (fun v => ("stroke_dash_pattern", v))),
   ("stroke-dashoffset", fun s =>
      (inheritable s floatConv).map (fun v => ("stroke_dash_phase", v))),
   ("stroke-linecap", fun s =>
      (inheritable s identityConv).map (fun v => ("stroke_cap_style", v))),
   ("stroke-linejoin", fun s =>
      (inheritable s identityConv).map (fun v => ("stroke_join_style", v))),
   ("stroke-miterlimit", fun s =>
      (inheritable s convert_miterlimit).map (fun v => ("stroke_miter_limit", v))),
   ("stroke-opacity", fun s =>
      (inheritable s (clampConv 0 1)).map (fun v => ("stroke_opacity", v)))]

/-- Lookup in an attribute mapping (Python dict access). -/
def lookupA (k : String) (a : List (String × String)) : Option String :=
  a.lookup k

/-- Assignment into an attribute mapping (Python dict assignment: replace
the existing entry in place, otherwise append). -/
def updateA (k v : String) : List (String × String) → List (String × String)
  | [] => [(k, v)]
  | p :: rest => if p.1 = k then (k, v) :: rest else p :: updateA k v rest

theorem lookupA_updateA_self (k v : String) (a : List (String × String)) :
    lookupA k (updateA k v a) = some v := by
  induction a with
  | nil => simp [lookupA, updateA]
  | cons p rest ih =>
      by_cases h : p.1 = k
      · simp [lookupA, updateA, h]
      · have hk : (k == p.1) = false := by
          simp [Ne.symm h]
        simp only [updateA, if_neg h]
        simpa [lookupA, List.lookup, hk] using ih

/-- Embedding of the pair extraction in parse_style (svg.py lines 288-304):
split the style text on semicolons, skip empty elements, keep exactly the
two-part name and value pairs with both parts nonempty, stripped. -/
def stylePairs (style : String) : List (String × String) :=
  (style.toList.splitOn ';').filterMap (fun element =>
    if element.isEmpty then none
    else
      match element.splitOn ':' with
      | [a, v] =>
          if a ≠ [] ∧ v ≠ [] then
            some (String.mk (trimChars a), String.mk (trimChars v))
          else none
      | _ => none)

/-- Embedding of parse_style (svg.py lines 288-304): when a style attribute
is present, write each of its pairs into the element's attribute mapping,
overwriting attributes of the same name. -/
def parse_style (attrib : List (String × String)) : List (String × String) :=
  match lookupA "style" attrib with
  | none => attrib
  | some style =>
      (stylePairs style).foldl (fun a kv => updateA kv.1 kv.2 a) attrib

/-- Assignment into the produced style record (setattr on the style). -/
def updateSV (k : String) (v : StyleVal) :
    List (String × StyleVal) → List (String × StyleVal)
  | [] => [(k, v)]
  | p :: rest => if p.1 = k then (k, v) :: rest else p :: updateSV k v rest

/-- The svg_attr_map loop of apply_styles (svg.py lines 314-320): for each
handled attribute present in the mapping, run its converter and assign the
resulting field; converter failures propagate. -/
def mapProperties (attrib : List (String × String)) :
    Except StyleError (List (String × StyleVal)) :=
  svg_attr_map.foldlM
    (fun acc entry =>
      match lookupA entry.1 attrib with
      | none => .ok acc
      | some v => do
          let r ← entry.2 v
          .ok (updateSV r.1 r.2 acc))
    []

/-- Embedding of the style portion of apply_styles (svg.py lines 308-329):
parse the style attribute into the attribute mapping first, then map the
handled properties, then handle the generic opacity attribute separately
through a bare float conversion setting fill and stroke opacity. -/
def apply_styles_props (attrib0 : List (String × String)) :
    Except StyleError (List (String × StyleVal)) := do
  let attrib := parse_style attrib0
  let props ← mapProperties attrib
  match lookupA "opacity" attrib with
  | none => .ok props
  | some v =>
      match pyFloat v with
      | some q =>
          .ok (updateSV "stroke_opacity" (.num q)
            (updateSV "fill_opacity" (.num q) props))
      | none => .error (.styleBadNumber v)

/-- C6 (counterexample): the generic opacity attribute does not accept the
value inherit; the bare float conversion fails, so the mapping errors
instead of yielding the inherit marker. -/
theorem opacity_inherit_rejected :
    apply_styles_props [("opacity", "inherit")]
      = .error (.styleBadNumber "inherit") := by
  decide

/-- C6 (amended): every presentation attribute in svg_attr_map accepts the
value inherit and yields the inherit marker, but the separately handled
generic opacity attribute does not: its mapping fails with a float
conversion error rather than succeeding. -/
theorem attr_map_inherit_accepted :
    (∀ i : Fin svg_attr_map.length,
        ∃ field, (svg_attr_map.get i).2 "inherit" = .ok (field, .inherit))
    ∧ apply_styles_props [("opacity", "inherit")]
        ≠ .ok [("fill_opacity", .inherit), ("stroke_opacity", .inherit)] := by
  constructor
  · intro i
    fin_cases i
    · exact ⟨"fill_color", rfl⟩
    · exact ⟨"intersection_rule", rfl⟩
    · exact ⟨"fill_opacity", rfl⟩
    · exact ⟨"stroke_color", rfl⟩
    · exact ⟨"stroke_width", rfl⟩
    · exact ⟨"stroke_dash_pattern", rfl⟩
    · exact ⟨"stroke_dash_phase", rfl⟩
    · exact ⟨"stroke_cap_style", rfl⟩
    · exact ⟨"stroke_join_style", rfl⟩
    · exact ⟨"stroke_miter_limit", rfl⟩
    · exact ⟨"stroke_opacity", rfl⟩
  · decide

/-- C10: a property assigned by the inline style attribute overwrites the
element's individual presentation attribute before any property mapping
occurs, so the inline-style value is the one the style record receives; in
particular fill red with style fill blue maps exactly like fill blue. -/
theorem style_attr_overrides :
    (∀ (attrib : List (String × String)) (s k v2 : String),
        lookupA "style" attrib = some s →
        stylePairs s = [(k, v2)] →
        lookupA k (parse_style attrib) = some v2)
    ∧ apply_styles_props [("fill", "red"), ("style", "fill:blue")]
        = apply_styles_props [("fill", "blue")] := by
  constructor
  · intro attrib s k v2 hs hp
    simp only [parse_style, hs, hp, List.foldl]
    exact lookupA_updateA_self k v2 attrib
  · decide

/-- C10 witness: the overwrite rule at the concrete element carrying
fill red and an inline style assigning fill blue. -/
theorem style_attr_overrides_witness :
    lookupA "style" [("fill", "red"), ("style", "fill:blue")] = some "fill:blue"
    ∧ stylePairs "fill:blue" = [("fill", "blue")]
    ∧ lookupA "fill" (parse_style [("fill", "red"), ("style", "fill:blue")])
        = some "blue" :=
  ⟨by decide, by decide,
    style_attr_overrides.1 [("fill", "red"), ("style", "fill:blue")]
      "fill:blue" "fill" "blue" (by decide) (by decide)⟩

/-- The resolved intrinsic width or height attribute of the document root:
absent (Python None), a Percent instance, or an absolute length in points. -/
inductive DimAttr where
  | unset
  | percent (q : ℚ)
  | lengthV (q : ℚ)
deriving DecidableEq, Repr

/-- The fields of SVGObject consumed by transform_to_rect_viewport, as
populated by extract_shape_info. -/
structure SVGDoc where
  width : DimAttr
  height : DimAttr
  viewbox : Option (ℚ × ℚ × ℚ × ℚ)
  preserve_ar : Bool
deriving DecidableEq, Repr

/-- The ValueError raised when a percentage dimension is used without a
viewport dimension. -/
inductive VPError where
  | percentWithoutViewport
deriving DecidableEq, Repr

/-- The graphics context returned by transform_to_rect_viewport: either a
fresh empty GraphicsContext, or the base group with its root transform. -/
inductive VPGroup where
  | emptyGC
  | base (tf : Transform)
deriving DecidableEq, Repr

/-- Resolution of one viewport dimension (svg.py lines 994-1014): with
ignore_svg_top_attrs the parameter wins; a Percent width requires a truthy
(nonzero) viewport parameter and takes that fraction of it; otherwise the
Python expression self.width or width picks the stored value unless it is
falsy (absent or zero). -/
def resolveVpDim (dim : DimAttr) (param : ℚ) (ignore_svg_top_attrs : Bool) :
    Except VPError ℚ :=
  if ignore_svg_top_attrs then .ok param
  else
    match dim with
    | .percent p =>
        if param = 0 then .error .percentWithoutViewport
        else .ok (p * param / 100)
    | .lengthV w => if w = 0 then .ok param else .ok w
    | .unset => .ok param

/-- Embedding of SVGObject.transform_to_rect_viewport (svg.py lines
965-1047): resolve the two viewport dimensions, build the device scale
transform, then, when a viewBox is declared, short-circuit on a zero-extent
viewBox, otherwise compose the ratio scaling (collapsed to the minimum when
aspect-ratio preservation applies) and the optional centering translation. -/
def transform_to_rect_viewport (doc : SVGDoc) (scale width height : ℚ)
    (align_viewbox ignore_svg_top_attrs : Bool) :
    Except VPError (ℚ × ℚ × VPGroup) := do
  let vp_width ← resolveVpDim doc.width width ignore_svg_top_attrs
  let vp_height ← resolveVpDim doc.height height ignore_svg_top_attrs
  let transform0 :=
    if scale = 1 then Transform.identity
    else Transform.scaling (1 / scale) (1 / scale)
  match doc.viewbox with
  | none => .ok (vp_width / scale, vp_height / scale, .base transform0)
  | some (vx, vy, vw, vh) =>
      if vw = 0 ∨ vh = 0 then .ok (0, 0, .emptyGC)
      else
        let wr0 := vp_width / vw
        let hr0 := vp_height / vh
        let collapse :=
          ignore_svg_top_attrs = false ∧ doc.preserve_ar = true ∧ wr0 ≠ hr0
        let wr := if collapse then min wr0 hr0 else wr0
        let hr := if collapse then min wr0 hr0 else hr0
        let transform1 :=
          Transform.matmul
            (Transform.matmul transform0 (Transform.translation (-vx) (-vy)))
            (Transform.scaling wr hr)
        let transform2 :=
          if align_viewbox then
            Transform.matmul transform1
              (Transform.translation (vp_width / 2 - vw / 2 * wr)
                (vp_height / 2 - vh / 2 * hr))
          else transform1
        .ok (vp_width / scale, vp_height / scale, .base transform2)

/-- C9 (counterexample): a document with a percentage width and a
zero-width viewBox, given a zero viewport width, raises the percentage
error before the zero-extent viewBox short circuit is reached, so the
operation does not return the zero-size empty result the claim promises
for every computation on such a document. -/
theorem viewport_percent_zero_viewbox_error :
    transform_to_rect_viewport ⟨.percent 50, .unset, some (0, 0, 0, 10), true⟩
        1 0 0 true false
      = .error .percentWithoutViewport
    ∧ transform_to_rect_viewport ⟨.percent 50, .unset, some (0, 0, 0, 10), true⟩
        1 0 0 true false
      ≠ .ok (0, 0, .emptyGC) := by
  constructor
  · decide
  · decide

/-- C9 (amended): whenever the resolution of the intrinsic width and height
succeeds, a viewBox with zero width or zero height makes the computation
return resolved width 0, resolved height 0 and a fresh empty group
without error, before any ratio against the viewBox extent is formed. -/
theorem zero_viewbox_empty_result
    (doc : SVGDoc) (scale width height : ℚ) (av it : Bool)
    (vx vy vw vh vpw vph : ℚ)
    (hvb : doc.viewbox = some (vx, vy, vw, vh))
    (hzero : vw = 0 ∨ vh = 0)
    (hw : resolveVpDim doc.width width it = .ok vpw)
    (hh : resolveVpDim doc.height height it = .ok vph) :
    transform_to_rect_viewport doc scale width height av it
      = .ok (0, 0, .emptyGC) := by
  simp only [transform_to_rect_viewport, hw, hh, hvb, bind, Except.bind,
    if_pos hzero]

/-- C9 witness: a concrete document with absent intrinsic dimensions and a
zero-width viewBox yields the empty zero-size result. -/
theorem zero_viewbox_empty_result_witness :
    transform_to_rect_viewport ⟨.unset, .unset, some (0, 0, 0, 10), true⟩
        1 5 5 true false
      = .ok (0, 0, .emptyGC) :=
  zero_viewbox_empty_result ⟨.unset, .unset, some (0, 0, 0, 10), true⟩
    1 5 5 true false 0 0 0 10 5 5 rfl (Or.inl rfl) (by decide) (by decide)

/-- Element tags the walker distinguishes; namespace resolution through
xmlns_lookup is abstracted into the tag itself. -/
inductive Tag where
  | g
  | path
  | defs
  | use
  | rect
  | circle
  | ellipse
  | line
  | polyline
  | polygon
  | other
deriving DecidableEq, Repr

/-- Membership in shape_tags (svg.py lines 172-174). -/
def Tag.isShape : Tag → Bool
  | .rect | .circle | .ellipse | .line | .polyline | .polygon => true
  | _ => false

mutual
/-- The built drawing-model subtree: a PaintedPath (its geometry conversion
is modelled separately, here only its transform and source data remain) or
a GraphicsContext with its transform and child items. -/
inductive Built where
  | path (tf : Option Transform) (d : Option String)
  | group (tf : Option Transform) (items : BuiltList)
/-- Child list of a built group. -/
inductive BuiltList where
  | nil
  | cons (b : Built) (rest : BuiltList)
end

/-- Concatenation of built child lists (repeated add_item). -/
def BuiltList.append : BuiltList → BuiltList → BuiltList
  | .nil, ys => ys
  | .cons x xs, ys => .cons x (xs.append ys)

mutual
/-- A markup element: tag, optional id attribute, remaining string
attributes, the parsed transform attribute (tokenized transform-function
list, compiled by convert_transforms when styles are applied), children. -/
inductive Elt where
  | mk (tag : Tag) (idAttr : Option String) (attrib : List (String × String))
      (tf : Option (List TF)) (children : EltList)
/-- Child list of an element. -/
inductive EltList where
  | nil
  | cons (e : Elt) (rest : EltList)
end

/-- Tag accessor. -/
def Elt.tag : Elt → Tag
  | .mk t _ _ _ _ => t

/-- Accessor for the id attribute. -/
def Elt.idAttr : Elt → Option String
  | .mk _ i _ _ _ => i

/-- Accessor for the string attributes. -/
def Elt.attrib : Elt → List (String × String)
  | .mk _ _ a _ _ => a

/-- Accessor for the parsed transform attribute. -/
def Elt.tfL : Elt → Option (List TF)
  | .mk _ _ _ t _ => t

/-- Accessor for the children. -/
def Elt.children : Elt → EltList
  | .mk _ _ _ _ c => c

/-- Assignment into the cross-reference table (Python dict assignment). -/
def updateX (k : String) (v : Built) :
    List (String × Built) → List (String × Built)
  | [] => [(k, v)]
  | p :: rest => if p.1 = k then (k, v) :: rest else p :: updateX k v rest

theorem lookup_updateX_self (k : String) (v : Built)
    (a : List (String × Built)) : (updateX k v a).lookup k = some v := by
  induction a with
  | nil => simp [updateX]
  | cons p rest ih =>
      by_cases h : p.1 = k
      · simp [updateX, h]
      · have hk : (k == p.1) = false := by
          simp [Ne.symm h]
        simp only [updateX, if_neg h]
        simpa [List.lookup, hk] using ih

/-- Errors of the document walker: a use element without a reference
attribute, a reference to an identifier not yet in the table (both
ValueError in build_xref), or an uncaught float conversion error. -/
inductive WalkError where
  | missingHref
  | unresolvedRef (ref : String)
  | walkBadNumber (s : String)
deriving DecidableEq, Repr

/-- The namespaced href key produced by xmlns_lookup for xlink. -/
def xlinkHref : String := "\x7bhttp://www.w3.org/1999/xlink\x7dhref"

/-- The candidate loop of build_xref (svg.py lines 1094-1101): the
namespaced href is tried first, then the bare name, in the insertion order
of xmlns_lookup. -/
def hrefOf (attrib : List (String × String)) : Option String :=
  match lookupA xlinkHref attrib with
  | some r => some r
  | none => lookupA "href" attrib

/-- Float conversion of an optional attribute with Python default 0, the
model of float(xref.attrib.get(name, 0)). -/
def floatAttrD0 (attrib : List (String × String)) (k : String) :
    Except WalkError ℚ :=
  match lookupA k attrib with
  | none => .ok 0
  | some s =>
      match pyFloat s with
      | some v => .ok v
      | none => .error (.walkBadNumber s)

/-- A basic shape built by a ShapeBuilder classmethod.  ShapeBuilder has no
access to the SVGObject instance, so shape conversion can never write to
the cross-reference table; the geometry itself is modelled separately. -/
def build_shape (e : Elt) : Built :=
  .path (e.tfL.map convert_transforms) (lookupA "d" e.attrib)

/-- Embedding of SVGObject.build_path (svg.py lines 1146-1161): build the
painted path with its styles, then register it under "#" + id when an id
attribute is present. -/
def build_path (cross_references : List (String × Built)) (e : Elt) :
    List (String × Built) × Built :=
  let pdf_path := Built.path (e.tfL.map convert_transforms) (lookupA "d" e.attrib)
  match e.idAttr with
  | some i => (updateX ("#" ++ i) pdf_path cross_references, pdf_path)
  | none => (cross_references, pdf_path)

/-- Embedding of SVGObject.build_xref (svg.py lines 1089-1117): apply the
styles (of which the transform attribute survives in this model), find the
first href-family attribute, fail when absent; look the reference up in the
table, fail when absent; wrap the referenced subtree in a new group; when
an x or y attribute is present assign the additional translate(x, y) to the
wrapping group's transform field. -/
def build_xref (cross_references : List (String × Built)) (e : Elt) :
    Except WalkError Built := do
  let tf0 := e.tfL.map convert_transforms
  match hrefOf e.attrib with
  | none => .error .missingHref
  | some ref =>
      match cross_references.lookup ref with
      | none => .error (.unresolvedRef ref)
      | some target =>
          if (lookupA "x" e.attrib).isSome || (lookupA "y" e.attrib).isSome then do
            let x ← floatAttrD0 e.attrib "x"
            let y ← floatAttrD0 e.attrib "y"
            .ok (.group (some (Transform.translation x y)) (.cons target .nil))
          else
            .ok (.group tf0 (.cons target .nil))

theorem Elt.sizeOf_children_lt (e : Elt) : sizeOf e.children < sizeOf e := by
  cases e
  simp [Elt.children]

mutual
/-- Embedding of SVGObject.build_group (svg.py lines 1119-1143) in the
pdf_group=None case: create the group with its styles, process the children
in document order, then register the group under "#" + id if an id
attribute is present (registration happens after the children). -/
def build_group (cross_references : List (String × Built)) (e : Elt) :
    Except WalkError (List (String × Built) × Built) := do
  let res ← build_children cross_references .nil e.children
  let pdf_group := Built.group (e.tfL.map convert_transforms) res.2
  match e.idAttr with
  | some i => .ok (updateX ("#" ++ i) pdf_group res.1, pdf_group)
  | none => .ok (res.1, pdf_group)
termination_by sizeOf e
decreasing_by
  simp_wf
  exact Elt.sizeOf_children_lt e

/-- The child loop of build_group: defs are processed for registration side
effects only, groups recurse, paths and shapes and use references append
their built item, unrecognized tags are ignored. -/
def build_children (cross_references : List (String × Built))
    (acc : BuiltList) (cs : EltList) :
    Except WalkError (List (String × Built) × BuiltList) :=
  match cs with
  | .nil => .ok (cross_references, acc)
  | .cons c rest =>
      match c.tag with
      | .defs => do
          let xr2 ← handle_defs cross_references c.children
          build_children xr2 acc rest
      | .g => do
          let r ← build_group cross_references c
          build_children r.1 (acc.append (.cons r.2 .nil)) rest
      | .path =>
          let r := build_path cross_references c
          build_children r.1 (acc.append (.cons r.2 .nil)) rest
      | .use => do
          let b ← build_xref cross_references c
          build_children cross_references (acc.append (.cons b .nil)) rest
      | .other => build_children cross_references acc rest
      | _ =>
          build_children cross_references (acc.append (.cons (build_shape c) .nil))
            rest
termination_by sizeOf cs
decreasing_by
  all_goals simp_wf
  all_goals try (have h := Elt.sizeOf_children_lt c)
  all_goals omega

/-- Embedding of SVGObject.handle_defs (svg.py lines 1077-1084): children
of defs are built only for their registration side effect, and only group
and path children are examined. -/
def handle_defs (cross_references : List (String × Built)) (cs : EltList) :
    Except WalkError (List (String × Built)) :=
  match cs with
  | .nil => .ok cross_references
  | .cons c rest =>
      match c.tag with
      | .g => do
          let r ← build_group cross_references c
          handle_defs r.1 rest
      | .path =>
          let r := build_path cross_references c
          handle_defs r.1 rest
      | _ => handle_defs cross_references rest
termination_by sizeOf cs
decreasing_by
  all_goals simp_wf
  all_goals omega
end


/-- C3 at the failing input: a use element carrying href="#a", x="10",
y="5" and transform="scale(2)", with "#a" registered, produces a wrapping
group whose transform is exactly translate(10, 5): the assignment replaces
the scale(2) compiled from the transform attribute instead of composing
with it, while the wrapped child is the registered subtree itself. -/
theorem use_xy_translation_replaces_transform (b : Built) :
    build_xref [("#a", b)]
      (.mk .use none [("href", "#a"), ("x", "10"), ("y", "5")]
        (some [TF.scale1 2]) .nil)
      = .ok (.group (some (Transform.translation 10 5)) (.cons b .nil)) := by
  rfl

/-- C4: a use element without any href-family attribute fails with the
missing-reference error; a use element whose reference is not in the
cross-reference table when it is encountered fails with the unresolved
reference error; in particular a forward reference, to an id registered
only by a later sibling, makes the whole conversion fail. -/
theorem build_xref_reference_errors :
    (∀ (xr : List (String × Built)) (e : Elt),
        hrefOf e.attrib = none → build_xref xr e = .error .missingHref)
    ∧ (∀ (xr : List (String × Built)) (e : Elt) (ref : String),
        hrefOf e.attrib = some ref → xr.lookup ref = none →
        build_xref xr e = .error (.unresolvedRef ref))
    ∧ (∀ (body : EltList),
        build_group []
          (.mk .g none [] none
            (.cons (.mk .use none [("href", "#a")] none .nil)
              (.cons (.mk .g (some "a") [] none body) .nil)))
          = .error (.unresolvedRef "#a")) := by
  refine ⟨fun xr e h => ?_, fun xr e ref h1 h2 => ?_, fun body => ?_⟩
  · simp [build_xref, h]
  · simp [build_xref, h1, h2]
  · have hx : build_xref []
        (.mk .use none [("href", "#a")] none .nil)
        = .error (.unresolvedRef "#a") := by rfl
    simp [build_group, build_children, Elt.children, Elt.tag, Elt.idAttr,
      Elt.tfL, hx, bind, Except.bind]

/-- C4 witness: concrete use elements with no reference attribute and with
an unregistered reference fail with the two errors. -/
theorem build_xref_reference_errors_witness :
    hrefOf (Elt.attrib (.mk .use none [] none .nil)) = none
    ∧ build_xref [] (.mk .use none [] none .nil) = .error .missingHref
    ∧ hrefOf (Elt.attrib (.mk .use none [("href", "#z")] none .nil)) = some "#z"
    ∧ build_xref [] (.mk .use none [("href", "#z")] none .nil)
        = .error (.unresolvedRef "#z") :=
  ⟨rfl, build_xref_reference_errors.1 [] (.mk .use none [] none .nil) rfl,
    rfl, build_xref_reference_errors.2.1 []
      (.mk .use none [("href", "#z")] none .nil) "#z" rfl rfl⟩

/-- C5 (counterexample): a basic shape (rect) carrying id="a" inside a
group is built by ShapeBuilder and never registered: the cross-reference
table after the build is still empty, refuting registration for every
element kind. -/
theorem shape_id_not_registered :
    build_group []
      (.mk .g none [] none (.cons (.mk .rect (some "a") [] none .nil) .nil))
      = .ok ([], .group none (.cons (.path none none) .nil))
    ∧ ([] : List (String × Built)).lookup ("#" ++ "a") = none := by
  constructor
  · simp [build_group, build_children, build_shape, Elt.children, Elt.tag,
      Elt.idAttr, Elt.tfL, Elt.attrib, lookupA, BuiltList.append, bind,
      Except.bind]
  · rfl

/-- C5 (amended): path elements and group elements carrying an id register
their built subtree in the cross-reference table under "#" + id (the group
after its children are processed), while basic-shape children and use
children leave the table unchanged even when they carry an id. -/
theorem id_registration_rules :
    (∀ (xr : List (String × Built)) (e : Elt) (i : String),
        e.idAttr = some i →
        (build_path xr e).1 = updateX ("#" ++ i) (build_path xr e).2 xr)
    ∧ (∀ (xr xr2 : List (String × Built)) (e : Elt) (i : String) (b : Built),
        e.idAttr = some i → build_group xr e = .ok (xr2, b) →
        xr2.lookup ("#" ++ i) = some b)
    ∧ (∀ (xr : List (String × Built)) (acc : BuiltList) (c : Elt)
        (rest : EltList), c.tag.isShape = true →
        build_children xr acc (.cons c rest)
          = build_children xr (acc.append (.cons (build_shape c) .nil)) rest)
    ∧ (∀ (xr : List (String × Built)) (acc : BuiltList) (c : Elt)
        (rest : EltList), c.tag = .use →
        build_children xr acc (.cons c rest)
          = (build_xref xr c).bind
              (fun b => build_children xr (acc.append (.cons b .nil)) rest)) := by
  refine ⟨fun xr e i h => ?_, fun xr xr2 e i b hid hbg => ?_,
    fun xr acc c rest h => ?_, fun xr acc c rest h => ?_⟩
  · simp [build_path, h]
  · rw [build_group] at hbg
    rcases hres : build_children xr .nil e.children with e' | res
    · rw [hres] at hbg
      exact Except.noConfusion hbg
    · rw [hres] at hbg
      simp only [bind, Except.bind, hid] at hbg
      obtain ⟨h1, h2⟩ := Prod.mk.injEq .. |>.mp (Except.ok.inj hbg)
      rw [← h1, ← h2]
      exact lookup_updateX_self _ _ _
  · rw [build_children]
    cases ht : c.tag <;> simp_all [Tag.isShape]
  · rw [build_children]
    simp only [h]
    rfl

/-- C5 witness: a concrete group with id="a" ends registered under "#a"
with its built subtree. -/
theorem id_registration_rules_witness :
    Elt.idAttr (.mk .g (some "a") [] none .nil) = some "a"
    ∧ build_group [] (.mk .g (some "a") [] none .nil)
        = .ok ([("#" ++ "a", .group none .nil)], .group none .nil)
    ∧ ([("#" ++ "a", (.group none .nil : Built))]).lookup ("#" ++ "a")
        = some (.group none .nil) := by
  have hbg : build_group [] (.mk .g (some "a") [] none .nil)
      = .ok ([("#" ++ "a", .group none .nil)], .group none .nil) := by
    simp [build_group, build_children, Elt.children, Elt.tag, Elt.idAttr,
      Elt.tfL, updateX, bind, Except.bind]
  exact ⟨rfl, hbg,
    id_registration_rules.2.1 [] [("#" ++ "a", .group none .nil)]
      (.mk .g (some "a") [] none .nil) "a" (.group none .nil) rfl hbg⟩

end FpdfSvg
